import Mathlib

/-!
Verification of the `newwebserver.py` provisioning script.

The script is a one-shot orchestrator of cloud SDK calls.  We embed it
shallowly: every remote call and every fallible local I/O action is an
oracle drawn from an `Env`, and each embedded function returns both an
`Except PyExc` result (an `Except.error` value means a Python exception
propagates out of the function) and the list of remote calls it issued,
in order.  Python exceptions are modelled as values carrying the optional
botocore error-response code: a generic `Exception` has no `response`
attribute, so reading `err.response` on such a value itself raises
(modelled by `attributeError`).
-/

namespace Newwebserver

/-- A Python exception value as observed by the script: a message, and the
botocore response error code when the exception is a ClientError carrying
one (`err.response` access raises AttributeError when it is `none`). -/
structure PyExc where
  message : String
  response : Option String
deriving Repr, DecidableEq

/-- The AttributeError raised by evaluating `err.response` on an exception
that has no `response` attribute (line 108 of the source). -/
def attributeError : PyExc :=
  { message := "object has no attribute response", response := none }

/-- The ValueError raised by `list.index(x)` when `x` is absent. -/
def valueError (x : String) : PyExc :=
  { message := x ++ " is not in list", response := none }

/-- The IndexError raised by `list[i]` when `i` is out of range. -/
def indexError : PyExc :=
  { message := "list index out of range", response := none }

/-- One observable action of the script: every constructor is a remote
cloud call issued by the source, with the arguments the source passes. -/
inductive Event where
  | stsGetCallerIdentity : Event
  | s3CreateBucket (bucketName region : String) : Event
  | s3UploadFile (bucketName src key acl : String) : Event
  | ec2CreateKeyPair (keyName : String) (tagKeys : List String) : Event
  | ec2CreateSecurityGroup (groupName description : String)
      (tagKeys : List String) : Event
  | ec2AuthorizeIngress (fromPort toPort : Nat) (protocol cidr : String) : Event
  | ec2CreateInstances (imageId instanceType keyName groupName
      userData : String) (tagKeys : List String) : Event
  | ec2WaitUntilRunning : Event
  | ec2Reload : Event
deriving Repr, DecidableEq

/-- Outcomes of the remote calls and fallible local I/O the script performs,
fixed in advance by the surrounding world. -/
structure Env where
  /-- Outcome of `s3.create_bucket(...)` (line 100). -/
  createBucketResult : Except PyExc Unit
  /-- Outcome of `os.scandir(webFilesPath + "/bucket")` (line 132): the
  directory entry names, in iteration order. -/
  scandirResult : Except PyExc (List String)
  /-- Outcome of `bucket.upload_file(...)` (line 133) for a given file name. -/
  uploadResult : String → Except PyExc Unit
  /-- Outcome of `ec2.create_key_pair(...)` (line 152): the key material. -/
  createKeyPairResult : Except PyExc String
  /-- Outcome of opening and writing the local pem file (lines 166 to 167). -/
  writeKeyFileResult : Except PyExc Unit
  /-- Outcome of `ec2.create_security_group(...)` (line 177). -/
  createSecurityGroupResult : Except PyExc Unit
  /-- Outcome of `securityGroup.authorize_ingress(...)` for a given FromPort
  (lines 193, 204, 215). -/
  authorizeIngressResult : Nat → Except PyExc Unit
  /-- Outcome of `ec2.create_instances(...)` (line 234). -/
  createInstancesResult : Except PyExc Unit
  /-- Outcome of `instance.wait_until_running()` (line 260). -/
  waitUntilRunningResult : Except PyExc Unit
  /-- Outcome of `instance.reload()` (line 261). -/
  reloadResult : Except PyExc Unit
  /-- Outcome of opening and reading `./startupScript.sh` (lines 72, 82). -/
  openStartupScriptResult : Except PyExc String

/-- Flag resolution as the source writes it three times (lines 52 to 69):
membership test on `longForm`, extraction via `argv.index(shortForm) + 1`.
`list.index` raises ValueError when the element is absent; indexing past
the end raises IndexError; either exception escapes `main`. -/
def resolveFlag (argv : List String) (longForm shortForm dflt : String) :
    Except PyExc String :=
  if longForm ∈ argv then
    match argv.indexOf? shortForm with
    | none => Except.error (valueError shortForm)
    | some i =>
      match argv.get? (i + 1) with
      | none => Except.error indexError
      | some v => Except.ok v
  else Except.ok dflt

/-- The `for file in os.scandir(...)` loop body of `fillBucket`
(lines 132 to 133): upload each entry in order under its own name with a
public-read ACL, stopping at the first exception. -/
def uploadLoop (bucketName webFilesPath : String) (env : Env) :
    List String → Except PyExc Unit × List Event
  | [] => (Except.ok (), [])
  | f :: fs =>
    let ev := Event.s3UploadFile bucketName (webFilesPath ++ "/bucket/" ++ f)
      f "public-read"
    match env.uploadResult f with
    | Except.ok () =>
      let rest := uploadLoop bucketName webFilesPath env fs
      (rest.1, ev :: rest.2)
    | Except.error e => (Except.error e, [ev])

/-- Embedding of `fillBucket` (lines 121 to 140): scan the bucket
subdirectory and upload every entry; any exception in the try block is
caught and turned into a `False` return. -/
def fillBucket (bucketName webFilesPath : String) (env : Env) :
    Except PyExc Bool × List Event :=
  match env.scandirResult with
  | Except.error _ => (Except.ok false, [])
  | Except.ok entries =>
    match uploadLoop bucketName webFilesPath env entries with
    | (Except.ok (), evs) => (Except.ok true, evs)
    | (Except.error _, evs) => (Except.ok false, evs)

/-- Embedding of `createBucket` (lines 90 to 118): attempt creation in
eu-west-1; on an exception the handler reads `err.response` (raising
AttributeError when the exception carries no response), reuses the bucket
when the code is BucketAlreadyOwnedByYou, and returns `False` on any other
code; on creation success or reuse it tail-calls `fillBucket`. -/
def createBucket (bucketName webFilesPath : String) (env : Env) :
    Except PyExc Bool × List Event :=
  let ev := Event.s3CreateBucket bucketName "eu-west-1"
  match env.createBucketResult with
  | Except.ok () =>
    let rest := fillBucket bucketName webFilesPath env
    (rest.1, ev :: rest.2)
  | Except.error err =>
    match err.response with
    | none => (Except.error attributeError, [ev])
    | some code =>
      if code = "BucketAlreadyOwnedByYou" then
        let rest := fillBucket bucketName webFilesPath env
        (rest.1, ev :: rest.2)
      else (Except.ok false, [ev])

/-- Embedding of `createInstance` (lines 144 to 269): three sequential
guarded steps (key pair plus local pem write, security group plus three
ingress rules, instance launch plus wait and reload); each handler only
stringifies the exception, so every caught failure becomes `False`. The
`webFilesPath` parameter is accepted and unused, as in the source. -/
def createInstance (instanceName keyName webFilesPath startupScript
    processID : String) (env : Env) : Except PyExc Bool × List Event :=
  let _ := webFilesPath
  let evKey := Event.ec2CreateKeyPair keyName [processID]
  match env.createKeyPairResult with
  | Except.error _ => (Except.ok false, [evKey])
  | Except.ok _keyMaterial =>
    match env.writeKeyFileResult with
    | Except.error _ => (Except.ok false, [evKey])
    | Except.ok () =>
      let groupName := "webserver-security-group-" ++ processID
      let evSG := Event.ec2CreateSecurityGroup groupName
        ("A autogenerated security group for " ++ instanceName) [processID]
      match env.createSecurityGroupResult with
      | Except.error _ => (Except.ok false, [evKey, evSG])
      | Except.ok () =>
        let ev80 := Event.ec2AuthorizeIngress 80 80 "tcp" "0.0.0.0/0"
        match env.authorizeIngressResult 80 with
        | Except.error _ => (Except.ok false, [evKey, evSG, ev80])
        | Except.ok () =>
          let ev443 := Event.ec2AuthorizeIngress 443 443 "tcp" "0.0.0.0/0"
          match env.authorizeIngressResult 443 with
          | Except.error _ => (Except.ok false, [evKey, evSG, ev80, ev443])
          | Except.ok () =>
            let ev22 := Event.ec2AuthorizeIngress 22 22 "tcp" "0.0.0.0/0"
            match env.authorizeIngressResult 22 with
            | Except.error _ =>
              (Except.ok false, [evKey, evSG, ev80, ev443, ev22])
            | Except.ok () =>
              let evInst := Event.ec2CreateInstances "ami-096f43ef67d75e998"
                "t2.nano" keyName groupName startupScript [processID]
              match env.createInstancesResult with
              | Except.error _ =>
                (Except.ok false, [evKey, evSG, ev80, ev443, ev22, evInst])
              | Except.ok () =>
                match env.waitUntilRunningResult with
                | Except.error _ =>
                  (Except.ok false,
                    [evKey, evSG, ev80, ev443, ev22, evInst,
                      Event.ec2WaitUntilRunning])
                | Except.ok () =>
                  match env.reloadResult with
                  | Except.error _ =>
                    (Except.ok false,
                      [evKey, evSG, ev80, ev443, ev22, evInst,
                        Event.ec2WaitUntilRunning, Event.ec2Reload])
                  | Except.ok () =>
                    (Except.ok true,
                      [evKey, evSG, ev80, ev443, ev22, evInst,
                        Event.ec2WaitUntilRunning, Event.ec2Reload])

/-- Embedding of `doHelp` (lines 273 to 274): it does nothing and issues
no calls. -/
def doHelp : List Event := []

/-- Embedding of `main` (lines 41 to 86).  Configuration resolution and
the startup-script open run first and their exceptions escape; the help
flag then short-circuits.  Otherwise both provisioning coroutines are
created; a Python coroutine body does not run until awaited, and neither
body ever suspends at a real await point, so awaiting `instanceCreated`
first (line 85) runs all of `createInstance`, then awaiting
`bucketCreated` (line 86) runs all of `createBucket`. -/
def main (processID : String) (argv : List String) (env : Env) :
    Except PyExc Unit × List Event :=
  match resolveFlag argv "--bucket_name" "-bucket_name"
      "webserver-assignment-bucket-brazill" with
  | Except.error e => (Except.error e, [])
  | Except.ok bucketName =>
    match resolveFlag argv "--instance_name" "-instance_name"
        ("webserver-" ++ processID) with
    | Except.error e => (Except.error e, [])
    | Except.ok instanceName =>
      match resolveFlag argv "--web_files_path" "-web_files_path"
          "./webserver_files" with
      | Except.error e => (Except.error e, [])
      | Except.ok webFilesPath =>
        let keyName := "webserver-key-" ++ processID
        match env.openStartupScriptResult with
        | Except.error e => (Except.error e, [])
        | Except.ok startupScript =>
          if "--help" ∈ argv then (Except.ok (), doHelp)
          else
            let inst := createInstance instanceName keyName webFilesPath
              startupScript processID env
            match inst.1 with
            | Except.error e => (Except.error e, inst.2)
            | Except.ok _ =>
              let buck := createBucket bucketName webFilesPath env
              match buck.1 with
              | Except.error e => (Except.error e, inst.2 ++ buck.2)
              | Except.ok _ => (Except.ok (), inst.2 ++ buck.2)

/-- The remote calls of one whole process run (lines 28 to 34 then 279):
module initialisation performs the STS caller-identity lookup before
`main` is ever entered. -/
def programTrace (processID : String) (argv : List String) (env : Env) :
    List Event :=
  Event.stsGetCallerIdentity :: (main processID argv env).2

/-- Classification: events issued by the bucket-provisioning unit. -/
def isBucketEvent : Event → Bool
  | Event.s3CreateBucket _ _ => true
  | Event.s3UploadFile _ _ _ _ => true
  | _ => false

/-- Classification: events issued by the instance-provisioning unit. -/
def isInstanceEvent : Event → Bool
  | Event.ec2CreateKeyPair _ _ => true
  | Event.ec2CreateSecurityGroup _ _ _ => true
  | Event.ec2AuthorizeIngress _ _ _ _ => true
  | Event.ec2CreateInstances _ _ _ _ _ _ => true
  | Event.ec2WaitUntilRunning => true
  | Event.ec2Reload => true
  | _ => false

/-- Classification: file-upload calls. -/
def isUploadEvent : Event → Bool
  | Event.s3UploadFile _ _ _ _ => true
  | _ => false

/-- Classification: ingress-rule authorisation calls. -/
def isIngressEvent : Event → Bool
  | Event.ec2AuthorizeIngress _ _ _ _ => true
  | _ => false

/-- Classification: calls that create a taggable resource. -/
def isCreationEvent : Event → Bool
  | Event.ec2CreateKeyPair _ _ => true
  | Event.ec2CreateSecurityGroup _ _ _ => true
  | Event.ec2CreateInstances _ _ _ _ _ _ => true
  | _ => false

/-- The tag keys a creation call attaches to its resource. -/
def tagKeysOf : Event → List String
  | Event.ec2CreateKeyPair _ t => t
  | Event.ec2CreateSecurityGroup _ _ t => t
  | Event.ec2CreateInstances _ _ _ _ _ t => t
  | _ => []

/-- A world in which every remote call and every local I/O action
succeeds; the bucket directory holds one file. -/
def envAllOk : Env :=
  { createBucketResult := Except.ok ()
    scandirResult := Except.ok ["image.jpg"]
    uploadResult := fun _ => Except.ok ()
    createKeyPairResult := Except.ok "keymaterial"
    writeKeyFileResult := Except.ok ()
    createSecurityGroupResult := Except.ok ()
    authorizeIngressResult := fun _ => Except.ok ()
    createInstancesResult := Except.ok ()
    waitUntilRunningResult := Except.ok ()
    reloadResult := Except.ok ()
    openStartupScriptResult := Except.ok "#!/bin/bash" }

/-- A world identical to `envAllOk` except that bucket creation raises an
exception carrying no botocore response, as a parameter-validation or
connection error does. -/
def envCodelessCreateErr : Env :=
  { envAllOk with
    createBucketResult :=
      Except.error { message := "ParamValidationError", response := none } }

/-- A second such world, with a connection-style failure message. -/
def envConnCreateErr : Env :=
  { envAllOk with
    createBucketResult :=
      Except.error { message := "EndpointConnectionError", response := none } }

/-- A world in which bucket creation fails with the BucketAlreadyOwnedByYou
error code and everything else succeeds. -/
def envBucketOwned : Env :=
  { envAllOk with
    createBucketResult :=
      Except.error
        { message := "ClientError",
          response := some "BucketAlreadyOwnedByYou" } }

/-- Helper: `list.index` on an absent element yields no index. -/
theorem indexOf?_eq_none_of_not_mem {l : List String} {a : String}
    (h : a ∉ l) : l.indexOf? a = none := by
  rw [List.indexOf?_eq_none_iff]
  intro x hx hxa
  rw [beq_iff_eq] at hxa
  exact h (hxa ▸ hx)

/-- Claim C1: when an argument list contains a long-form flag token but not
the corresponding short-form token, the membership check of the
configuration resolver succeeds but the extraction step searches for the
short form, raises ValueError, and never retrieves the value following the
long form. -/
theorem flag_long_short_mismatch (argv : List String) :
    (∀ dflt, "--bucket_name" ∈ argv → "-bucket_name" ∉ argv →
      resolveFlag argv "--bucket_name" "-bucket_name" dflt =
        Except.error (valueError "-bucket_name")) ∧
    (∀ dflt, "--instance_name" ∈ argv → "-instance_name" ∉ argv →
      resolveFlag argv "--instance_name" "-instance_name" dflt =
        Except.error (valueError "-instance_name")) ∧
    (∀ dflt, "--web_files_path" ∈ argv → "-web_files_path" ∉ argv →
      resolveFlag argv "--web_files_path" "-web_files_path" dflt =
        Except.error (valueError "-web_files_path")) := by
  refine ⟨?_, ?_, ?_⟩ <;>
    · intro dflt hlong hshort
      simp [resolveFlag, hlong, indexOf?_eq_none_of_not_mem hshort]

/-- Witness for C1 at the concrete argument list
`["--bucket_name", "mybucket"]`. -/
theorem flag_long_short_mismatch_witness :
    resolveFlag ["--bucket_name", "mybucket"] "--bucket_name" "-bucket_name"
      "webserver-assignment-bucket-brazill" =
      Except.error (valueError "-bucket_name") :=
  (flag_long_short_mismatch ["--bucket_name", "mybucket"]).1
    "webserver-assignment-bucket-brazill" (by decide) (by decide)

/-- Helper: `fillBucket` catches every exception of its try block and
always returns a boolean. -/
theorem fillBucket_no_raise (bucketName webFilesPath : String) (env : Env) :
    ∃ b, (fillBucket bucketName webFilesPath env).1 = Except.ok b := by
  unfold fillBucket
  cases env.scandirResult with
  | error e => exact ⟨false, rfl⟩
  | ok entries =>
    rcases h : uploadLoop bucketName webFilesPath env entries with ⟨r, evs⟩
    cases r with
    | ok u => exact ⟨true, by simp [h]⟩
    | error e => exact ⟨false, by simp [h]⟩

/-- Helper: `createInstance` catches every exception of its three try
blocks and always returns a boolean. -/
theorem createInstance_no_raise (instanceName keyName webFilesPath
    startupScript processID : String) (env : Env) :
    ∃ b, (createInstance instanceName keyName webFilesPath startupScript
      processID env).1 = Except.ok b := by
  unfold createInstance
  cases env.createKeyPairResult with
  | error e => exact ⟨false, rfl⟩
  | ok km =>
    cases env.writeKeyFileResult with
    | error e => exact ⟨false, rfl⟩
    | ok u =>
      cases env.createSecurityGroupResult with
      | error e => exact ⟨false, rfl⟩
      | ok u =>
        cases h80 : env.authorizeIngressResult 80 with
        | error e => exact ⟨false, by simp [h80]⟩
        | ok u =>
          cases h443 : env.authorizeIngressResult 443 with
          | error e => exact ⟨false, by simp [h80, h443]⟩
          | ok u =>
            cases h22 : env.authorizeIngressResult 22 with
            | error e => exact ⟨false, by simp [h80, h443, h22]⟩
            | ok u =>
              cases env.createInstancesResult with
              | error e => exact ⟨false, by simp [h80, h443, h22]⟩
              | ok u =>
                cases env.waitUntilRunningResult with
                | error e => exact ⟨false, by simp [h80, h443, h22]⟩
                | ok u =>
                  cases env.reloadResult with
                  | error e => exact ⟨false, by simp [h80, h443, h22]⟩
                  | ok u => exact ⟨true, by simp [h80, h443, h22]⟩

/-- Counterexample to C2 as stated: in a world where `s3.create_bucket`
raises an exception carrying no botocore response, the handler at line 108
evaluates `err.response` and itself raises AttributeError, which
propagates out of `createBucket`. -/
theorem createBucket_exception_escapes_cex :
    (createBucket "webserver-assignment-bucket-brazill" "./webserver_files"
        envCodelessCreateErr).1 = Except.error attributeError ∧
    ∀ b, (createBucket "webserver-assignment-bucket-brazill"
        "./webserver_files" envCodelessCreateErr).1 ≠ Except.ok b := by
  exact ⟨rfl, fun b h => Except.noConfusion h⟩

/-- Claim C2 (amended): every failure raised inside a guarded step of
`fillBucket` or `createInstance` is converted into a boolean result; for
`createBucket` the same holds whenever every possible creation failure
carries an error response code, while a codeless creation failure escapes
as an exception. -/
theorem exceptions_confined_amended (bucketName webFilesPath instanceName
    keyName startupScript processID : String) (env : Env) :
    (∃ b, (fillBucket bucketName webFilesPath env).1 = Except.ok b) ∧
    (∃ b, (createInstance instanceName keyName webFilesPath startupScript
      processID env).1 = Except.ok b) ∧
    ((∀ e, env.createBucketResult = Except.error e → e.response ≠ none) →
      ∃ b, (createBucket bucketName webFilesPath env).1 = Except.ok b) := by
  refine ⟨fillBucket_no_raise bucketName webFilesPath env,
    createInstance_no_raise instanceName keyName webFilesPath startupScript
      processID env, ?_⟩
  intro hcode
  unfold createBucket
  cases h : env.createBucketResult with
  | ok u =>
    obtain ⟨b, hb⟩ := fillBucket_no_raise bucketName webFilesPath env
    exact ⟨b, by simpa using hb⟩
  | error e =>
    cases hr : e.response with
    | none => exact absurd hr (hcode e h)
    | some code =>
      by_cases hc : code = "BucketAlreadyOwnedByYou"
      · obtain ⟨b, hb⟩ := fillBucket_no_raise bucketName webFilesPath env
        exact ⟨b, by simp [hr, hc, hb]⟩
      · exact ⟨false, by simp [hr, hc]⟩

/-- Witness for the amended C2 at the concrete all-success world. -/
theorem exceptions_confined_amended_witness :
    ∃ b, (createBucket "b" "w" envAllOk).1 = Except.ok b :=
  (exceptions_confined_amended "b" "w" "i" "k" "s" "p" envAllOk).2.2
    (fun _ he => Except.noConfusion he)

/-- Helper: every call issued by the upload loop is a bucket-unit call. -/
theorem uploadLoop_events_bucket (bucketName webFilesPath : String)
    (env : Env) (l : List String) :
    ∀ e ∈ (uploadLoop bucketName webFilesPath env l).2,
      isBucketEvent e = true := by
  induction l with
  | nil => intro e he; simp [uploadLoop] at he
  | cons f fs ih =>
    intro e he
    unfold uploadLoop at he
    cases h : env.uploadResult f with
    | ok u =>
      rw [h] at he
      simp only [List.mem_cons] at he
      rcases he with rfl | he
      · rfl
      · exact ih e he
    | error e2 =>
      rw [h] at he
      simp only [List.mem_singleton] at he
      subst he
      rfl

/-- Helper: every call issued by `fillBucket` is a bucket-unit call. -/
theorem fillBucket_events_bucket (bucketName webFilesPath : String)
    (env : Env) :
    ∀ e ∈ (fillBucket bucketName webFilesPath env).2,
      isBucketEvent e = true := by
  intro e he
  unfold fillBucket at he
  cases h : env.scandirResult with
  | error e2 => simp [h] at he
  | ok entries =>
    simp only [h] at he
    rcases hu : uploadLoop bucketName webFilesPath env entries with ⟨r, evs⟩
    have hb := uploadLoop_events_bucket bucketName webFilesPath env entries e
    rw [hu] at hb
    cases r with
    | ok u =>
      cases u
      simp only [hu] at he
      exact hb he
    | error e2 =>
      simp only [hu] at he
      exact hb he

/-- Helper: every call issued by `createBucket` is a bucket-unit call. -/
theorem createBucket_events_bucket (bucketName webFilesPath : String)
    (env : Env) :
    ∀ e ∈ (createBucket bucketName webFilesPath env).2,
      isBucketEvent e = true := by
  intro e he
  unfold createBucket at he
  cases h : env.createBucketResult with
  | ok u =>
    cases u
    simp only [h, List.mem_cons] at he
    rcases he with rfl | he
    · rfl
    · exact fillBucket_events_bucket bucketName webFilesPath env e he
  | error err =>
    simp only [h] at he
    cases hr : err.response with
    | none =>
      simp only [hr, List.mem_singleton] at he
      subst he; rfl
    | some code =>
      simp only [hr] at he
      by_cases hc : code = "BucketAlreadyOwnedByYou"
      · simp only [if_pos hc, List.mem_cons] at he
        rcases he with rfl | he
        · rfl
        · exact fillBucket_events_bucket bucketName webFilesPath env e he
      · simp only [if_neg hc, List.mem_singleton] at he
        subst he; rfl

/-- Helper: every call issued by `createInstance` is an instance-unit
call. -/
theorem createInstance_events_instance (instanceName keyName webFilesPath
    startupScript processID : String) (env : Env) :
    ∀ e ∈ (createInstance instanceName keyName webFilesPath startupScript
      processID env).2, isInstanceEvent e = true := by
  intro e he
  unfold createInstance at he
  repeat' split at he
  all_goals fin_cases he <;> rfl

/-- Helper: in a run that reaches the provisioning phase, the trace of
`main` is the instance-unit trace followed by the bucket-unit trace. -/
theorem main_trace_split (processID : String) (argv : List String)
    (env : Env) (bn iN wfp ss : String)
    (h1 : resolveFlag argv "--bucket_name" "-bucket_name"
      "webserver-assignment-bucket-brazill" = Except.ok bn)
    (h2 : resolveFlag argv "--instance_name" "-instance_name"
      ("webserver-" ++ processID) = Except.ok iN)
    (h3 : resolveFlag argv "--web_files_path" "-web_files_path"
      "./webserver_files" = Except.ok wfp)
    (h4 : env.openStartupScriptResult = Except.ok ss)
    (h5 : "--help" ∉ argv) :
    (main processID argv env).2 =
      (createInstance iN ("webserver-key-" ++ processID) wfp ss processID
        env).2 ++ (createBucket bn wfp env).2 := by
  unfold main
  rw [h1, h2, h3, h4]
  simp only [if_neg h5]
  obtain ⟨b, hb⟩ := createInstance_no_raise iN ("webserver-key-" ++ processID)
    wfp ss processID env
  cases hbk : (createBucket bn wfp env).1 with
  | ok b2 => simp [hb, hbk]
  | error e2 => simp [hb, hbk]

/-- Claim C3: in every run that reaches the provisioning phase, the whole
trace of `main` is the `createInstance` trace followed by the
`createBucket` trace, the first consisting only of instance-unit calls and
the second only of bucket-unit calls, the two kinds being disjoint: the
instance-provisioning operation runs to completion or early failure before
any step of the bucket-provisioning operation executes. -/
theorem instance_unit_before_bucket_unit (processID : String)
    (argv : List String) (env : Env) (bn iN wfp ss : String)
    (h1 : resolveFlag argv "--bucket_name" "-bucket_name"
      "webserver-assignment-bucket-brazill" = Except.ok bn)
    (h2 : resolveFlag argv "--instance_name" "-instance_name"
      ("webserver-" ++ processID) = Except.ok iN)
    (h3 : resolveFlag argv "--web_files_path" "-web_files_path"
      "./webserver_files" = Except.ok wfp)
    (h4 : env.openStartupScriptResult = Except.ok ss)
    (h5 : "--help" ∉ argv) :
    (main processID argv env).2 =
      (createInstance iN ("webserver-key-" ++ processID) wfp ss processID
        env).2 ++ (createBucket bn wfp env).2 ∧
    (∀ e ∈ (createInstance iN ("webserver-key-" ++ processID) wfp ss
      processID env).2, isInstanceEvent e = true) ∧
    (∀ e ∈ (createBucket bn wfp env).2, isBucketEvent e = true) ∧
    (∀ e : Event, isInstanceEvent e = true → isBucketEvent e = false) := by
  refine ⟨main_trace_split processID argv env bn iN wfp ss h1 h2 h3 h4 h5,
    createInstance_events_instance iN ("webserver-key-" ++ processID) wfp ss
      processID env,
    createBucket_events_bucket bn wfp env, ?_⟩
  intro e h
  cases e <;> simp_all [isInstanceEvent, isBucketEvent]

/-- Witness for C3 at the empty argument list in the all-success world. -/
theorem instance_unit_before_bucket_unit_witness :
    (main "p" [] envAllOk).2 =
      (createInstance "webserver-p" "webserver-key-p" "./webserver_files"
        "#!/bin/bash" "p" envAllOk).2 ++
      (createBucket "webserver-assignment-bucket-brazill"
        "./webserver_files" envAllOk).2 :=
  (instance_unit_before_bucket_unit "p" [] envAllOk
    "webserver-assignment-bucket-brazill" "webserver-p" "./webserver_files"
    "#!/bin/bash" rfl rfl rfl rfl (by decide)).1

/-- Counterexample to C4 as stated: a creation failure whose exception
carries no error response code does not make `createBucket` return
failure; the handler raises while reading the code and the exception
escapes (no upload is attempted either way). -/
theorem other_creation_failure_not_boolean_cex :
    (createBucket "webserver-assignment-bucket-brazill" "./webserver_files"
        envConnCreateErr).1 = Except.error attributeError ∧
    (createBucket "webserver-assignment-bucket-brazill" "./webserver_files"
        envConnCreateErr).1 ≠ Except.ok false :=
  ⟨rfl, fun h => Except.noConfusion h⟩

/-- Claim C4 (amended): when bucket creation fails with the code
BucketAlreadyOwnedByYou, `createBucket` proceeds with a handle to the
existing bucket and its outcome is exactly the upload outcome; when it
fails with any other error code it returns failure having issued only the
creation call; when it fails without a response code the handler itself
raises and the exception escapes, again with no upload attempted. -/
theorem bucket_already_owned_reuse (bucketName webFilesPath : String)
    (env : Env) (e : PyExc)
    (he : env.createBucketResult = Except.error e) :
    (e.response = some "BucketAlreadyOwnedByYou" →
      createBucket bucketName webFilesPath env =
        ((fillBucket bucketName webFilesPath env).1,
          Event.s3CreateBucket bucketName "eu-west-1" ::
            (fillBucket bucketName webFilesPath env).2)) ∧
    (∀ code, e.response = some code → code ≠ "BucketAlreadyOwnedByYou" →
      createBucket bucketName webFilesPath env =
        (Except.ok false, [Event.s3CreateBucket bucketName "eu-west-1"])) ∧
    (e.response = none →
      createBucket bucketName webFilesPath env =
        (Except.error attributeError,
          [Event.s3CreateBucket bucketName "eu-west-1"])) := by
  refine ⟨fun hr => ?_, fun code hr hc => ?_, fun hr => ?_⟩
  · unfold createBucket
    simp [he, hr]
  · unfold createBucket
    simp [he, hr, hc]
  · unfold createBucket
    simp [he, hr]

/-- Witness for the amended C4 in the world where the bucket already
belongs to the caller. -/
theorem bucket_already_owned_reuse_witness :
    createBucket "b" "w" envBucketOwned =
      ((fillBucket "b" "w" envBucketOwned).1,
        Event.s3CreateBucket "b" "eu-west-1" ::
          (fillBucket "b" "w" envBucketOwned).2) :=
  (bucket_already_owned_reuse "b" "w" envBucketOwned
    { message := "ClientError", response := some "BucketAlreadyOwnedByYou" }
    rfl).1 rfl

/-- The upload call the loop issues for directory entry `f`. -/
def uploadEventOf (bucketName webFilesPath f : String) : Event :=
  Event.s3UploadFile bucketName (webFilesPath ++ "/bucket/" ++ f) f
    "public-read"

/-- Helper: when every upload succeeds the loop issues exactly one call
per entry, in order. -/
theorem uploadLoop_all_ok (bucketName webFilesPath : String) (env : Env)
    (l : List String) (h : ∀ f ∈ l, env.uploadResult f = Except.ok ()) :
    uploadLoop bucketName webFilesPath env l =
      (Except.ok (), l.map (uploadEventOf bucketName webFilesPath)) := by
  induction l with
  | nil => rfl
  | cons f fs ih =>
    have hf : env.uploadResult f = Except.ok () :=
      h f (List.mem_cons_self f fs)
    have hfs : ∀ g ∈ fs, env.uploadResult g = Except.ok () :=
      fun g hg => h g (List.mem_cons_of_mem f hg)
    unfold uploadLoop
    simp [hf, ih hfs, uploadEventOf]

/-- Helper: the loop stops at the first failing upload, having issued the
calls for the preceding entries and the failing one only. -/
theorem uploadLoop_first_err (bucketName webFilesPath : String) (env : Env)
    (pre : List String) (f : String) (post : List String) (e : PyExc)
    (hpre : ∀ g ∈ pre, env.uploadResult g = Except.ok ())
    (hf : env.uploadResult f = Except.error e) :
    uploadLoop bucketName webFilesPath env (pre ++ f :: post) =
      (Except.error e,
        (pre ++ [f]).map (uploadEventOf bucketName webFilesPath)) := by
  induction pre with
  | nil =>
    unfold uploadLoop
    simp [hf, uploadEventOf]
  | cons g gs ih =>
    have hg : env.uploadResult g = Except.ok () :=
      hpre g (List.mem_cons_self g gs)
    have hgs : ∀ x ∈ gs, env.uploadResult x = Except.ok () :=
      fun x hx => hpre x (List.mem_cons_of_mem g hx)
    have := ih hgs
    unfold uploadLoop
    simp only [List.cons_append, hg, this, uploadEventOf, List.map_cons]

/-- Claim C5: with the source directory scanning to `entries`, a fully
successful run of `fillBucket` issues exactly one public-read upload per
entry, keyed by the entry name, and returns success; and when the upload
of one entry raises, the entries after it are never attempted and
`fillBucket` returns failure. -/
theorem fillBucket_uploads_exactly (bucketName webFilesPath : String)
    (env : Env) (entries : List String)
    (hscan : env.scandirResult = Except.ok entries) :
    ((∀ f ∈ entries, env.uploadResult f = Except.ok ()) →
      fillBucket bucketName webFilesPath env =
        (Except.ok true,
          entries.map (uploadEventOf bucketName webFilesPath))) ∧
    (∀ pre f post e, entries = pre ++ f :: post →
      (∀ g ∈ pre, env.uploadResult g = Except.ok ()) →
      env.uploadResult f = Except.error e →
      fillBucket bucketName webFilesPath env =
        (Except.ok false,
          (pre ++ [f]).map (uploadEventOf bucketName webFilesPath))) := by
  constructor
  · intro hall
    unfold fillBucket
    simp [hscan, uploadLoop_all_ok bucketName webFilesPath env entries hall]
  · intro pre f post e hsplit hpre hf
    unfold fillBucket
    subst hsplit
    simp [hscan,
      uploadLoop_first_err bucketName webFilesPath env pre f post e hpre hf]

/-- A world whose bucket directory holds two files, the second of which
fails to upload. -/
def envSecondUploadFails : Env :=
  { envAllOk with
    scandirResult := Except.ok ["index.html", "style.css"]
    uploadResult := fun f =>
      if f = "style.css" then
        Except.error
          { message := "AccessDenied", response := some "AccessDenied" }
      else Except.ok () }

/-- Witness for C5: both conjuncts applied at concrete worlds, the
all-success one and the one whose second upload fails. -/
theorem fillBucket_uploads_exactly_witness :
    fillBucket "b" "w" envAllOk =
      (Except.ok true, [uploadEventOf "b" "w" "image.jpg"]) ∧
    fillBucket "b" "w" envSecondUploadFails =
      (Except.ok false,
        [uploadEventOf "b" "w" "index.html",
          uploadEventOf "b" "w" "style.css"]) := by
  constructor
  · exact (fillBucket_uploads_exactly "b" "w" envAllOk ["image.jpg"] rfl).1
      (by intro f hf; rfl)
  · exact (fillBucket_uploads_exactly "b" "w" envSecondUploadFails
      ["index.html", "style.css"] rfl).2 ["index.html"] "style.css" []
      { message := "AccessDenied", response := some "AccessDenied" }
      rfl (by intro g hg; fin_cases hg; simp [envSecondUploadFails])
      (by simp [envSecondUploadFails])

/-- A world in which the remote key-pair creation call fails. -/
def envKeyPairFail : Env :=
  { envAllOk with
    createKeyPairResult :=
      Except.error
        { message := "UnauthorizedOperation",
          response := some "UnauthorizedOperation" } }

/-- A world in which the key pair is created remotely but writing the
local pem file raises. -/
def envPemWriteFail : Env :=
  { envAllOk with
    writeKeyFileResult :=
      Except.error { message := "Permission denied", response := none } }

/-- Claim C6: when the key-pair creation call fails, `createInstance`
returns failure at once, its trace holding only that one call: the
security-group creation, the ingress authorisations and the instance
launch are never issued. -/
theorem keypair_failure_aborts (instanceName keyName webFilesPath
    startupScript processID : String) (env : Env) (e : PyExc)
    (h : env.createKeyPairResult = Except.error e) :
    createInstance instanceName keyName webFilesPath startupScript
      processID env =
      (Except.ok false, [Event.ec2CreateKeyPair keyName [processID]]) := by
  unfold createInstance
  simp [h]

/-- Witness for C6 in the world where key-pair creation fails. -/
theorem keypair_failure_aborts_witness :
    createInstance "i" "k" "w" "s" "p" envKeyPairFail =
      (Except.ok false, [Event.ec2CreateKeyPair "k" ["p"]]) :=
  keypair_failure_aborts "i" "k" "w" "s" "p" envKeyPairFail
    { message := "UnauthorizedOperation",
      response := some "UnauthorizedOperation" } rfl

/-- Claim C7: whenever the security-group step of `createInstance`
completes successfully, the run authorises exactly three ingress rules,
TCP 80, TCP 443 and TCP 22, each from 0.0.0.0/0, and no other ingress
call appears anywhere in the trace. -/
theorem security_group_exactly_three_rules (instanceName keyName
    webFilesPath startupScript processID km : String) (env : Env)
    (hk : env.createKeyPairResult = Except.ok km)
    (hw : env.writeKeyFileResult = Except.ok ())
    (hsg : env.createSecurityGroupResult = Except.ok ())
    (h80 : env.authorizeIngressResult 80 = Except.ok ())
    (h443 : env.authorizeIngressResult 443 = Except.ok ())
    (h22 : env.authorizeIngressResult 22 = Except.ok ()) :
    (createInstance instanceName keyName webFilesPath startupScript
      processID env).2.filter isIngressEvent =
      [Event.ec2AuthorizeIngress 80 80 "tcp" "0.0.0.0/0",
        Event.ec2AuthorizeIngress 443 443 "tcp" "0.0.0.0/0",
        Event.ec2AuthorizeIngress 22 22 "tcp" "0.0.0.0/0"] := by
  unfold createInstance
  simp only [hk, hw, hsg, h80, h443, h22]
  cases env.createInstancesResult with
  | error e => simp [isIngressEvent, isCreationEvent, List.filter]
  | ok u =>
    cases env.waitUntilRunningResult with
    | error e => simp [isIngressEvent, List.filter]
    | ok u2 =>
      cases env.reloadResult with
      | error e => simp [isIngressEvent, List.filter]
      | ok u3 => simp [isIngressEvent, List.filter]

/-- Witness for C7 in the all-success world. -/
theorem security_group_exactly_three_rules_witness :
    (createInstance "i" "k" "w" "s" "p" envAllOk).2.filter isIngressEvent =
      [Event.ec2AuthorizeIngress 80 80 "tcp" "0.0.0.0/0",
        Event.ec2AuthorizeIngress 443 443 "tcp" "0.0.0.0/0",
        Event.ec2AuthorizeIngress 22 22 "tcp" "0.0.0.0/0"] :=
  security_group_exactly_three_rules "i" "k" "w" "s" "p" "keymaterial"
    envAllOk rfl rfl rfl rfl rfl rfl

/-- Claim C9: every resource-creating call issued by `createInstance`,
namely the key pair, the security group and the instance launch, attaches
exactly the tag whose key is the per-run session identifier. -/
theorem created_resources_tagged (instanceName keyName webFilesPath
    startupScript processID : String) (env : Env) :
    ∀ e ∈ (createInstance instanceName keyName webFilesPath startupScript
      processID env).2,
      isCreationEvent e = true → tagKeysOf e = [processID] := by
  intro e he htag
  unfold createInstance at he
  repeat' split at he
  all_goals fin_cases he <;> simp_all [isCreationEvent, tagKeysOf]

/-- Witness for C9: the key-pair creation call of the all-success world
carries the session tag. -/
theorem created_resources_tagged_witness :
    tagKeysOf (Event.ec2CreateKeyPair "k" ["p"]) = ["p"] :=
  created_resources_tagged "i" "k" "w" "s" "p" envAllOk
    (Event.ec2CreateKeyPair "k" ["p"]) (List.mem_cons_self _ _) rfl

/-- Claim C10: when the remote key-pair creation succeeds but writing the
local pem file raises, `createInstance` returns failure from the key-pair
step with a trace holding exactly the remote creation call: the security
group and the instance are never attempted, while the remote key pair was
created and no call of the program deletes it, leaving it orphaned. -/
theorem pem_write_failure_orphans_keypair (instanceName keyName
    webFilesPath startupScript processID km : String) (env : Env)
    (e : PyExc) (hk : env.createKeyPairResult = Except.ok km)
    (hw : env.writeKeyFileResult = Except.error e) :
    createInstance instanceName keyName webFilesPath startupScript
      processID env =
      (Except.ok false, [Event.ec2CreateKeyPair keyName [processID]]) ∧
    Event.ec2CreateKeyPair keyName [processID] ∈
      (createInstance instanceName keyName webFilesPath startupScript
        processID env).2 := by
  have hmain : createInstance instanceName keyName webFilesPath
      startupScript processID env =
      (Except.ok false, [Event.ec2CreateKeyPair keyName [processID]]) := by
    unfold createInstance
    simp [hk, hw]
  exact ⟨hmain, by rw [hmain]; exact List.mem_cons_self _ _⟩

/-- Witness for C10 in the world where only the pem write fails. -/
theorem pem_write_failure_orphans_keypair_witness :
    createInstance "i" "k" "w" "s" "p" envPemWriteFail =
      (Except.ok false, [Event.ec2CreateKeyPair "k" ["p"]]) :=
  (pem_write_failure_orphans_keypair "i" "k" "w" "s" "p" "keymaterial"
    envPemWriteFail { message := "Permission denied", response := none }
    rfl rfl).1

/-- Counterexample to C8 as stated: with the help flag present the process
still makes a remote cloud call, the STS caller-identity lookup performed
at module initialisation, before `main` is entered. -/
theorem help_run_still_makes_remote_call_cex :
    "--help" ∈ ["--help"] ∧
    Event.stsGetCallerIdentity ∈ programTrace "p" ["--help"] envAllOk :=
  ⟨List.mem_cons_self _ _, List.mem_cons_self _ _⟩

/-- Claim C8 (amended): when the argument list contains the help flag and
configuration resolution and the startup-script open succeed, `main`
returns at once without running `createBucket` or `createInstance` and
issues no remote call itself; the only remote call of the whole run is
the caller-identity lookup already made at startup. -/
theorem help_short_circuits_main (processID : String) (argv : List String)
    (env : Env) (bn iN wfp ss : String)
    (h1 : resolveFlag argv "--bucket_name" "-bucket_name"
      "webserver-assignment-bucket-brazill" = Except.ok bn)
    (h2 : resolveFlag argv "--instance_name" "-instance_name"
      ("webserver-" ++ processID) = Except.ok iN)
    (h3 : resolveFlag argv "--web_files_path" "-web_files_path"
      "./webserver_files" = Except.ok wfp)
    (h4 : env.openStartupScriptResult = Except.ok ss)
    (h5 : "--help" ∈ argv) :
    main processID argv env = (Except.ok (), []) ∧
    programTrace processID argv env = [Event.stsGetCallerIdentity] := by
  have hm : main processID argv env = (Except.ok (), []) := by
    unfold main
    simp [h1, h2, h3, h4, h5, doHelp]
  exact ⟨hm, by unfold programTrace; rw [hm]⟩

/-- Witness for the amended C8 at the one-flag argument list. -/
theorem help_short_circuits_main_witness :
    main "p" ["--help"] envAllOk = (Except.ok (), []) :=
  (help_short_circuits_main "p" ["--help"] envAllOk
    "webserver-assignment-bucket-brazill" "webserver-p" "./webserver_files"
    "#!/bin/bash" rfl rfl rfl rfl (List.mem_cons_self _ _)).1

end Newwebserver
